import Mathlib

/-!
Shallow embedding of the media-container metadata normalizer
(`src/src/ffmpeg.cpp`, function `ffmpeg`, and `src/avformat_interface.cpp`,
function `dump_container_data`).

Both C functions take one Python argument, check it is a string, open the
container through libavformat (the "Container Prober"), probe stream
information, and build a Python dict with a `"streams"` list (and, in the
`ffmpeg` variant, an optional `"chapters"` list).

Modelling conventions:
- The Prober (libavformat) is external; its answers for one call are packaged
  in `ProberData`: whether `avformat_open_input` and
  `avformat_find_stream_info` succeed, the per-stream data (codec parameters,
  duration, time base, metadata dictionary), the chapter data, and the
  `avio_size` value used for bitrate estimation.
- Python dicts with string keys are association lists with
  `PyDict_SetItemString` overwrite semantics (`dictSet`); a missing key is a
  `none` lookup (`dictGet`).
- C `double` arithmetic on durations is idealized as exact rational
  arithmetic (ℚ); the C cast `(int64_t)` of a double is truncation toward
  zero (`truncQ`).
- External string tables that the C code reads through total never-null
  helpers (`avcodec_get_name`, `av_get_media_type_string` on the media kinds
  that occur) are carried as plain `String` data / a total function; external
  helpers that return nullable pointers and whose null case the call sites
  must handle (`avcodec_profile_name`, `avcodec_descriptor_get`,
  `av_dict_get`) are carried as `Option String`.
- The trace `RunTrace` records whether `avformat_open_input` was invoked and
  whether `avformat_close_input` was invoked during the call, so resource
  claims about the container handle can be stated.
-/

namespace CanonMedia

/-- The AVMediaType values that a probed stream can carry, restricted to the
kinds for which `av_get_media_type_string` returns a non-null name (the
dispatch in both C functions only distinguishes video / audio / subtitle
from everything else). -/
inductive MediaType where
  | video
  | audio
  | subtitle
  | data
  | attachment
deriving DecidableEq, Repr

/-- `av_get_media_type_string`: the libavutil name table for media types. -/
def av_get_media_type_string : MediaType → String
  | .video => "video"
  | .audio => "audio"
  | .subtitle => "subtitle"
  | .data => "data"
  | .attachment => "attachment"

/-- One probed stream, as the Prober reports it: codec parameters
(`codecpar`), stream duration in ticks, stream time base (a rational number
of seconds per tick), the codec tag, and the stream metadata dictionary.
`codec_name` is the value of `avcodec_get_name(codecpar->codec_id)` (total,
never null); `profile_name` is the value of
`avcodec_profile_name(codecpar->codec_id, codecpar->profile)` (null when the
codec id / profile pair resolves to no known profile, modelled `none`);
`codec_long_name` is `avcodec_descriptor_get(codec_id)->long_name` when a
descriptor exists, else `none`. -/
structure AVStreamData where
  codec_type : MediaType
  codec_name : String
  profile_name : Option String
  codec_long_name : Option String
  bit_rate : ℤ
  profile : ℤ
  level : ℤ
  width : ℤ
  height : ℤ
  duration : ℤ
  time_base : ℚ
  codec_tag : ℕ
  metadata : List (String × String)
deriving DecidableEq

/-- One probed chapter: id, start and end in ticks, the chapter's own time
base, and the chapter metadata dictionary. -/
structure AVChapterData where
  id : ℤ
  start : ℤ
  end_ : ℤ
  time_base : ℚ
  metadata : List (String × String)
deriving DecidableEq

/-- Everything the Prober answers during one call: whether
`avformat_open_input` succeeds, whether `avformat_find_stream_info`
succeeds, the stream list, the chapter list, and the `avio_size` of the
underlying byte stream (the C code uses `fmt_ctx->pb ? avio_size(fmt_ctx->pb) : 0`,
so a null `pb` is the value `0` here, and errors are negative values). -/
structure ProberData where
  openOk : Bool
  probeOk : Bool
  streams : List AVStreamData
  chapters : List AVChapterData
  file_size : ℤ
deriving DecidableEq

/-- The argument of the call: either a Python unicode string or any
non-string Python object (`PyUnicode_Check` fails). -/
inductive PyInput where
  | str (path : String)
  | nonstr
deriving DecidableEq

/-- A Python value stored in one of the produced dicts. -/
inductive PyVal where
  | int (i : ℤ)
  | float (q : ℚ)
  | str (s : String)
deriving DecidableEq

/-- A Python dict with string keys, as an ordered association list. -/
abbrev Dict := List (String × PyVal)

/-- `PyDict_SetItemString`: overwrite the value if the key is present,
otherwise append the pair. -/
def dictSet (d : Dict) (k : String) (v : PyVal) : Dict :=
  match d with
  | [] => [(k, v)]
  | (k', v') :: rest => if k' = k then (k, v) :: rest else (k', v') :: dictSet rest k v

/-- Dict lookup: the value stored at a key, `none` when the key is absent. -/
def dictGet (d : Dict) (k : String) : Option PyVal :=
  match d with
  | [] => none
  | (k', v) :: rest => if k' = k then some v else dictGet rest k

/-- `av_dict_get` on a stream/chapter metadata dictionary: the value of the
entry with the given key, `none` when no such entry exists. -/
def av_dict_get (m : List (String × String)) (key : String) : Option String :=
  match m with
  | [] => none
  | (k, v) :: rest => if k = key then some v else av_dict_get rest key

/-- Truncation of a rational toward zero, the behaviour of the C cast
`(int64_t)` applied to a double. -/
def truncQ (q : ℚ) : ℤ :=
  if 0 ≤ q then ⌊q⌋ else ⌈q⌉

/-- Embedding of the video bitrate computation of `ffmpeg`
(src/src/ffmpeg.cpp lines 115-126): start from the reported
`codecpar->bit_rate`; when it is `0`, and `stream->duration > 0`, and the
probed byte size is `> 0`, replace it by
`(int64_t)((file_size * 8) / (duration * av_q2d(time_base)))`. -/
def videoBitRate (reported duration : ℤ) (time_base : ℚ) (file_size : ℤ) : ℤ :=
  if reported = 0 then
    if 0 < duration then
      if 0 < file_size then
        truncQ (((file_size : ℚ) * 8) / ((duration : ℚ) * time_base))
      else reported
    else reported
  else reported

/-- Modelled from the spec: the FourCC decoder used for the subtitle
`format` field is FFmpeg's `av_fourcc_make_string`, whose body is not part
of this repository's sources; the spec describes it as interpreting the
32-bit tag as four consecutive bytes in low-to-high byte order (byte 0 =
least significant byte), each byte mapping directly to one character. -/
def av_fourcc_make_string (tag : ℕ) : String :=
  String.mk [Char.ofNat (tag % 256), Char.ofNat (tag / 256 % 256),
    Char.ofNat (tag / 65536 % 256), Char.ofNat (tag / 16777216 % 256)]

/-- Embedding of the per-stream dict construction of `ffmpeg`
(src/src/ffmpeg.cpp lines 92-159): common fields `index`, `type`, `codec`,
then the kind dispatch. On the video path the C code passes the result of
`avcodec_profile_name` to `PyUnicode_FromString` with no null check; when
that result is null (modelled `none`) no dict is produced and the call
cannot complete, hence the `none` result. -/
def ffmpegStreamDict (file_size : ℤ) (i : ℕ) (s : AVStreamData) : Option Dict :=
  let d := dictSet [] "index" (.int (i : ℤ))
  let d := dictSet d "type" (.str (av_get_media_type_string s.codec_type))
  let d := dictSet d "codec" (.str s.codec_name)
  match s.codec_type with
  | .video =>
    let d := dictSet d "bit_rate"
      (.int (videoBitRate s.bit_rate s.duration s.time_base file_size))
    let d := dictSet d "profile" (.int s.profile)
    match s.profile_name with
    | none => none
    | some pn =>
      let d := dictSet d "profile_name" (.str pn)
      let d := dictSet d "level" (.int s.level)
      let d := dictSet d "width" (.int s.width)
      let d := dictSet d "height" (.int s.height)
      some d
  | .audio => some (dictSet d "bit_rate" (.int s.bit_rate))
  | .subtitle =>
    let lang := match av_dict_get s.metadata "language" with
      | some v => v
      | none => "und"
    let d := dictSet d "language" (.str lang)
    let title := match av_dict_get s.metadata "title" with
      | some v => v
      | none => ""
    let d := dictSet d "title" (.str title)
    let codec_long := match s.codec_long_name with
      | some l => l
      | none => s.codec_name
    let d := dictSet d "codec" (.str s.codec_name)
    let d := dictSet d "codec_long" (.str codec_long)
    let d := dictSet d "format" (.str (av_fourcc_make_string s.codec_tag))
    some d
  | _ => some d

/-- The stream loop of `ffmpeg` (src/src/ffmpeg.cpp lines 89-169): build the
per-stream dicts in stream order, with `index` values counting up from the
given starting index; fail as soon as one stream dict cannot be built. -/
def ffmpegStreamsAux (file_size : ℤ) : ℕ → List AVStreamData → Option (List Dict)
  | _, [] => some []
  | i, s :: rest =>
    match ffmpegStreamDict file_size i s, ffmpegStreamsAux file_size (i + 1) rest with
    | some d, some ds => some (d :: ds)
    | _, _ => none

/-- Embedding of the per-chapter dict construction of `ffmpeg`
(src/src/ffmpeg.cpp lines 184-218): `id` verbatim, `start_time` and
`end_time` as ticks times the chapter's own time base, `title` from the
chapter metadata with default `""`. -/
def ffmpegChapterDict (c : AVChapterData) : Dict :=
  let d := dictSet [] "id" (.int c.id)
  let d := dictSet d "start_time" (.float ((c.start : ℚ) * c.time_base))
  let d := dictSet d "end_time" (.float ((c.end_ : ℚ) * c.time_base))
  let title := match av_dict_get c.metadata "title" with
    | some v => v
    | none => ""
  dictSet d "title" (.str title)

/-- What a call raises when it fails: `invalidInput` for the
`PyUnicode_Check` failure (a `TypeError`), `openFailure` / `streamInfoFailure`
for the two Prober failures (each message echoes the path), and
`constructionFailure` for a failure while assembling the result. -/
inductive FfmpegError where
  | invalidInput
  | openFailure (path : String)
  | streamInfoFailure (path : String)
  | constructionFailure
deriving DecidableEq

/-- The top-level result dict: the `"streams"` key always holds the stream
dict list; `chapters = none` models the `"chapters"` key being entirely
absent from the result dict, `some l` models the key being present with
list `l`. -/
structure ContainerResult where
  streams : List Dict
  chapters : Option (List Dict)
deriving DecidableEq

/-- Which Prober resource-management calls happened during one call:
whether `avformat_open_input` was invoked and whether
`avformat_close_input` was invoked. -/
structure RunTrace where
  openCalled : Bool
  closeCalled : Bool
deriving DecidableEq

/-- Embedding of the whole `ffmpeg` entry point (src/src/ffmpeg.cpp lines
10-241), paired with its resource trace. Faithful to the C control flow:
`avformat_close_input` is invoked only on the `avformat_find_stream_info`
failure path (line 35); the success path (`return result;`, line 240) and
the construction-failure paths return without closing the handle. -/
def ffmpeg (input : PyInput) (p : ProberData) :
    Except FfmpegError ContainerResult × RunTrace :=
  match input with
  | .nonstr => (.error .invalidInput, ⟨false, false⟩)
  | .str path =>
    if p.openOk then
      if p.probeOk then
        match ffmpegStreamsAux p.file_size 0 p.streams with
        | none => (.error .constructionFailure, ⟨true, false⟩)
        | some sl =>
          (.ok { streams := sl
                 chapters := if 0 < p.chapters.length
                   then some (p.chapters.map ffmpegChapterDict)
                   else none },
            ⟨true, false⟩)
      else (.error (.streamInfoFailure path), ⟨true, true⟩)
    else (.error (.openFailure path), ⟨true, false⟩)

/-- Embedding of the per-stream dict construction of `dump_container_data`
(src/avformat_interface.cpp lines 52-125): common fields `index`, `type`,
`codec`; video adds `bit_rate` (reported value verbatim, no estimation),
`profile`, `level`, `width`, `height`; audio adds `bit_rate`; every other
kind gets only the common fields. -/
def dumpStreamDict (i : ℕ) (s : AVStreamData) : Dict :=
  let d := dictSet [] "index" (.int (i : ℤ))
  let d := dictSet d "type" (.str (av_get_media_type_string s.codec_type))
  let d := dictSet d "codec" (.str s.codec_name)
  match s.codec_type with
  | .video =>
    let d := dictSet d "bit_rate" (.int s.bit_rate)
    let d := dictSet d "profile" (.int s.profile)
    let d := dictSet d "level" (.int s.level)
    let d := dictSet d "width" (.int s.width)
    dictSet d "height" (.int s.height)
  | .audio => dictSet d "bit_rate" (.int s.bit_rate)
  | _ => d

/-- The stream loop of `dump_container_data` (src/avformat_interface.cpp
lines 52-135). -/
def dumpStreams : ℕ → List AVStreamData → List Dict
  | _, [] => []
  | i, s :: rest => dumpStreamDict i s :: dumpStreams (i + 1) rest

/-- Embedding of the whole `dump_container_data` entry point
(src/avformat_interface.cpp lines 7-142), paired with its resource trace.
Like `ffmpeg`, it closes the container handle only on the
`avformat_find_stream_info` failure path; it never emits a `chapters` key. -/
def dump_container_data (input : PyInput) (p : ProberData) :
    Except FfmpegError ContainerResult × RunTrace :=
  match input with
  | .nonstr => (.error .invalidInput, ⟨false, false⟩)
  | .str path =>
    if p.openOk then
      if p.probeOk then
        (.ok { streams := dumpStreams 0 p.streams, chapters := none }, ⟨true, false⟩)
      else (.error (.streamInfoFailure path), ⟨true, true⟩)
    else (.error (.openFailure path), ⟨true, false⟩)

/-! ## Helper lemmas about the dict operations and the stream loops -/

theorem dictGet_dictSet_same (d : Dict) (k : String) (v : PyVal) :
    dictGet (dictSet d k v) k = some v := by
  induction d with
  | nil => simp [dictSet, dictGet]
  | cons kv rest ih =>
    obtain ⟨k', v'⟩ := kv
    by_cases h : k' = k <;> simp [dictSet, dictGet, h, ih]

theorem dictGet_dictSet_other (d : Dict) (k k' : String) (v : PyVal) (h : k' ≠ k) :
    dictGet (dictSet d k' v) k = dictGet d k := by
  induction d with
  | nil => simp [dictSet, dictGet, h]
  | cons kv rest ih =>
    obtain ⟨k'', v''⟩ := kv
    by_cases h2 : k'' = k' <;> simp [dictSet, dictGet, h2, h, ih]

theorem ffmpegStreamDict_common (fs : ℤ) (i : ℕ) (s : AVStreamData) (d : Dict)
    (hd : ffmpegStreamDict fs i s = some d) :
    dictGet d "index" = some (.int (i : ℤ)) ∧
    dictGet d "type" = some (.str (av_get_media_type_string s.codec_type)) ∧
    dictGet d "codec" = some (.str s.codec_name) := by
  cases hct : s.codec_type
  case video =>
    cases hpn : s.profile_name with
    | none => simp [ffmpegStreamDict, hct, hpn] at hd
    | some pn =>
      simp only [ffmpegStreamDict, hct, hpn, Option.some.injEq] at hd
      subst hd
      refine ⟨?_, ?_, ?_⟩ <;>
        simp [hct, dictGet_dictSet_same, dictGet_dictSet_other]
  case audio =>
    simp only [ffmpegStreamDict, hct, Option.some.injEq] at hd
    subst hd
    refine ⟨?_, ?_, ?_⟩ <;>
      simp [hct, dictGet_dictSet_same, dictGet_dictSet_other]
  case subtitle =>
    simp only [ffmpegStreamDict, hct, Option.some.injEq] at hd
    subst hd
    refine ⟨?_, ?_, ?_⟩ <;>
      simp [hct, dictGet_dictSet_same, dictGet_dictSet_other]
  case data =>
    simp only [ffmpegStreamDict, hct, Option.some.injEq] at hd
    subst hd
    refine ⟨?_, ?_, ?_⟩ <;>
      simp [hct, dictGet_dictSet_same, dictGet_dictSet_other]
  case attachment =>
    simp only [ffmpegStreamDict, hct, Option.some.injEq] at hd
    subst hd
    refine ⟨?_, ?_, ?_⟩ <;>
      simp [hct, dictGet_dictSet_same, dictGet_dictSet_other]

theorem dumpStreamDict_common (i : ℕ) (s : AVStreamData) :
    dictGet (dumpStreamDict i s) "index" = some (.int (i : ℤ)) ∧
    dictGet (dumpStreamDict i s) "type" = some (.str (av_get_media_type_string s.codec_type)) ∧
    dictGet (dumpStreamDict i s) "codec" = some (.str s.codec_name) := by
  cases hct : s.codec_type <;>
    refine ⟨?_, ?_, ?_⟩ <;>
    simp [dumpStreamDict, hct, dictGet_dictSet_same, dictGet_dictSet_other]

theorem ffmpegStreamsAux_length (fs : ℤ) :
    ∀ (l : List AVStreamData) (n : ℕ) (ds : List Dict),
      ffmpegStreamsAux fs n l = some ds → ds.length = l.length := by
  intro l
  induction l with
  | nil =>
    intro n ds h
    simp only [ffmpegStreamsAux, Option.some.injEq] at h
    subst h
    rfl
  | cons s rest ih =>
    intro n ds h
    cases hd : ffmpegStreamDict fs n s with
    | none => simp [ffmpegStreamsAux, hd] at h
    | some d =>
      cases hds : ffmpegStreamsAux fs (n + 1) rest with
      | none => simp [ffmpegStreamsAux, hd, hds] at h
      | some ds' =>
        simp only [ffmpegStreamsAux, hd, hds, Option.some.injEq] at h
        subst h
        simp [ih (n + 1) ds' hds]

theorem ffmpegStreamsAux_get (fs : ℤ) :
    ∀ (l : List AVStreamData) (n k : ℕ) (ds : List Dict) (d : Dict),
      ffmpegStreamsAux fs n l = some ds → ds[k]? = some d →
      ∃ s, l[k]? = some s ∧ ffmpegStreamDict fs (n + k) s = some d := by
  intro l
  induction l with
  | nil =>
    intro n k ds d h hk
    simp only [ffmpegStreamsAux, Option.some.injEq] at h
    subst h
    simp at hk
  | cons s rest ih =>
    intro n k ds d h hk
    cases hd : ffmpegStreamDict fs n s with
    | none => simp [ffmpegStreamsAux, hd] at h
    | some d0 =>
      cases hds : ffmpegStreamsAux fs (n + 1) rest with
      | none => simp [ffmpegStreamsAux, hd, hds] at h
      | some ds' =>
        simp only [ffmpegStreamsAux, hd, hds, Option.some.injEq] at h
        subst h
        cases k with
        | zero =>
          simp only [List.getElem?_cons_zero, Option.some.injEq] at hk
          subst hk
          exact ⟨s, by simp, by simpa using hd⟩
        | succ k' =>
          simp only [List.getElem?_cons_succ] at hk
          obtain ⟨s', hs', hd'⟩ := ih (n + 1) k' ds' d hds hk
          refine ⟨s', by simpa using hs', ?_⟩
          rw [show n + (k' + 1) = n + 1 + k' by omega]
          exact hd'

theorem dumpStreams_length :
    ∀ (l : List AVStreamData) (n : ℕ), (dumpStreams n l).length = l.length := by
  intro l
  induction l with
  | nil => intro n; rfl
  | cons s rest ih => intro n; simp [dumpStreams, ih (n + 1)]

theorem dumpStreams_get :
    ∀ (l : List AVStreamData) (n k : ℕ) (s : AVStreamData),
      l[k]? = some s → (dumpStreams n l)[k]? = some (dumpStreamDict (n + k) s) := by
  intro l
  induction l with
  | nil => intro n k s h; simp at h
  | cons s0 rest ih =>
    intro n k s h
    cases k with
    | zero =>
      simp only [List.getElem?_cons_zero, Option.some.injEq] at h
      subst h
      simp [dumpStreams]
    | succ k' =>
      simp only [List.getElem?_cons_succ] at h
      have := ih (n + 1) k' s h
      simpa [dumpStreams, show n + 1 + k' = n + (k' + 1) by omega] using this

theorem dumpStreams_get_none (l : List AVStreamData) (n k : ℕ)
    (h : l[k]? = none) : (dumpStreams n l)[k]? = none := by
  rw [List.getElem?_eq_none_iff] at h ⊢
  rw [dumpStreams_length]
  exact h

theorem ffmpegChapterDict_fields (c : AVChapterData) :
    dictGet (ffmpegChapterDict c) "id" = some (.int c.id) ∧
    dictGet (ffmpegChapterDict c) "start_time" = some (.float ((c.start : ℚ) * c.time_base)) ∧
    dictGet (ffmpegChapterDict c) "end_time" = some (.float ((c.end_ : ℚ) * c.time_base)) ∧
    dictGet (ffmpegChapterDict c) "title" =
      some (.str (match av_dict_get c.metadata "title" with | some v => v | none => "")) := by
  refine ⟨?_, ?_, ?_, ?_⟩ <;>
    simp [ffmpegChapterDict, dictGet_dictSet_same, dictGet_dictSet_other]

theorem ffmpeg_ok_elim (input : PyInput) (p : ProberData) (r : ContainerResult)
    (tr : RunTrace) (h : ffmpeg input p = (.ok r, tr)) :
    p.openOk = true ∧ p.probeOk = true ∧
    ffmpegStreamsAux p.file_size 0 p.streams = some r.streams ∧
    r.chapters = (if 0 < p.chapters.length
      then some (p.chapters.map ffmpegChapterDict) else none) := by
  cases input with
  | nonstr => simp [ffmpeg] at h
  | str path =>
    cases ho : p.openOk with
    | false => simp [ffmpeg, ho] at h
    | true =>
      cases hp : p.probeOk with
      | false => simp [ffmpeg, ho, hp] at h
      | true =>
        cases haux : ffmpegStreamsAux p.file_size 0 p.streams with
        | none => simp [ffmpeg, ho, hp, haux] at h
        | some sl =>
          simp only [ffmpeg, ho, hp, haux, if_true, Prod.mk.injEq, Except.ok.injEq] at h
          obtain ⟨hr, htr⟩ := h
          subst hr
          exact ⟨rfl, rfl, by simp [haux], rfl⟩

theorem dump_ok_elim (input : PyInput) (p : ProberData) (r : ContainerResult)
    (tr : RunTrace) (h : dump_container_data input p = (.ok r, tr)) :
    p.openOk = true ∧ p.probeOk = true ∧
    r.streams = dumpStreams 0 p.streams ∧ r.chapters = none := by
  cases input with
  | nonstr => simp [dump_container_data] at h
  | str path =>
    cases ho : p.openOk with
    | false => simp [dump_container_data, ho] at h
    | true =>
      cases hp : p.probeOk with
      | false => simp [dump_container_data, ho, hp] at h
      | true =>
        simp only [dump_container_data, ho, hp, if_true, Prod.mk.injEq,
          Except.ok.injEq] at h
        obtain ⟨hr, htr⟩ := h
        subst hr
        exact ⟨rfl, rfl, rfl, rfl⟩

theorem videoBitRate_eq_spec (reported duration : ℤ) (tb : ℚ) (fs : ℤ)
    (htb : 0 < tb) :
    videoBitRate reported duration tb fs =
      if reported ≠ 0 then reported
      else if 0 < (duration : ℚ) * tb ∧ 0 < fs then
        ⌊((fs : ℚ) * 8) / ((duration : ℚ) * tb)⌋
      else 0 := by
  unfold videoBitRate
  by_cases hr : reported = 0
  · subst hr
    by_cases hdur : 0 < duration
    · have hdq : 0 < (duration : ℚ) * tb :=
        mul_pos (by exact_mod_cast hdur) htb
      by_cases hfs : 0 < fs
      · have hq : 0 ≤ ((fs : ℚ) * 8) / ((duration : ℚ) * tb) := by
          have hfsq : (0 : ℚ) < (fs : ℚ) := by exact_mod_cast hfs
          exact le_of_lt (div_pos (by linarith) hdq)
        simp [hdur, hfs, hdq, truncQ, hq]
      · simp [hdur, hfs, hdq]
    · have hdq : ¬ 0 < (duration : ℚ) * tb := by
        push_neg at hdur ⊢
        have hdq' : (duration : ℚ) ≤ 0 := by exact_mod_cast hdur
        nlinarith
      simp [hdur, hdq]
  · simp [hr]

/-! ## Concrete Prober data used by the witnesses and counterexamples -/

/-- A video stream with reported bitrate 0, duration 10000 ticks and time
base 1/1000 (10 seconds), matching the worked example of the spec. -/
def c1Stream : AVStreamData :=
  { codec_type := .video
    codec_name := "h264"
    profile_name := some "High"
    codec_long_name := none
    bit_rate := 0
    profile := 100
    level := 40
    width := 1920
    height := 1080
    duration := 10000
    time_base := 1/1000
    codec_tag := 0
    metadata := [] }

/-- An audio stream. -/
def audioStream : AVStreamData :=
  { codec_type := .audio
    codec_name := "aac"
    profile_name := none
    codec_long_name := none
    bit_rate := 128000
    profile := 2
    level := 0
    width := 0
    height := 0
    duration := 0
    time_base := 1/48000
    codec_tag := 0
    metadata := [] }

/-- A subtitle stream with a `language` tag and no `title` tag. -/
def subStream : AVStreamData :=
  { codec_type := .subtitle
    codec_name := "subrip"
    profile_name := none
    codec_long_name := some "SubRip subtitle"
    bit_rate := 0
    profile := 0
    level := 0
    width := 0
    height := 0
    duration := 0
    time_base := 1/1000
    codec_tag := 0x61706974
    metadata := [("language", "fra")] }

/-- A video stream whose codec id / profile pair resolves to no known
profile name (`avcodec_profile_name` returns a null pointer): for example
an MPEG-1 video stream with `codecpar->profile` left at
`FF_PROFILE_UNKNOWN` (-99). -/
def unknownProfileStream : AVStreamData :=
  { codec_type := .video
    codec_name := "mpeg1video"
    profile_name := none
    codec_long_name := none
    bit_rate := 500000
    profile := -99
    level := -99
    width := 640
    height := 480
    duration := 0
    time_base := 1/90000
    codec_tag := 0
    metadata := [] }

/-- A chapter running from tick 0 to tick 9000 with time base 1/9000
(0.0 s to 1.0 s), with a title tag. -/
def chap1 : AVChapterData :=
  { id := 1
    start := 0
    end_ := 9000
    time_base := 1/9000
    metadata := [("title", "Intro")] }

/-- A container that opens and probes successfully and holds no streams and
no chapters. -/
def successProber : ProberData :=
  { openOk := true, probeOk := true, streams := [], chapters := [], file_size := 0 }

/-- A container with two streams (video then audio). -/
def c2Prober : ProberData :=
  { openOk := true, probeOk := true, streams := [c1Stream, audioStream],
    chapters := [], file_size := 0 }

/-- A container with one chapter. -/
def c4Prober : ProberData :=
  { openOk := true, probeOk := true, streams := [], chapters := [chap1],
    file_size := 0 }

/-- A container holding the stream whose profile name is unresolvable. -/
def c8Prober : ProberData :=
  { openOk := true, probeOk := true, streams := [unknownProfileStream],
    chapters := [], file_size := 0 }

/-- A container with a video, an audio and a subtitle stream. -/
def c10Prober : ProberData :=
  { openOk := true, probeOk := true, streams := [c1Stream, audioStream, subStream],
    chapters := [], file_size := 0 }

/-! ## Claim theorems -/

/-- Claim C1: for every video stream (the Prober's stream time base being a
positive rational number of seconds per tick), the emitted `bit_rate` equals
the reported bitrate when that value is non-zero; when the reported value is
0, if `duration_sec = duration × time_base > 0` and `file_size > 0` then
`bit_rate = floor(file_size × 8 / duration_sec)`, and otherwise
`bit_rate = 0`. -/
theorem emitted_video_bit_rate (fs : ℤ) (i : ℕ) (s : AVStreamData) (d : Dict)
    (hv : s.codec_type = .video) (htb : 0 < s.time_base)
    (hd : ffmpegStreamDict fs i s = some d) :
    dictGet d "bit_rate" = some (.int (
      if s.bit_rate ≠ 0 then s.bit_rate
      else if 0 < (s.duration : ℚ) * s.time_base ∧ 0 < fs then
        ⌊((fs : ℚ) * 8) / ((s.duration : ℚ) * s.time_base)⌋
      else 0)) := by
  rw [← videoBitRate_eq_spec s.bit_rate s.duration s.time_base fs htb]
  cases hpn : s.profile_name with
  | none => simp [ffmpegStreamDict, hv, hpn] at hd
  | some pn =>
    simp only [ffmpegStreamDict, hv, hpn, Option.some.injEq] at hd
    subst hd
    simp [dictGet_dictSet_same, dictGet_dictSet_other]

/-- Witness for C1: the spec's worked example — reported bitrate 0,
duration 10 s, byte size 1250000 — yields an emitted bitrate of 1000000. -/
theorem emitted_video_bit_rate_witness :
    dictGet ((ffmpegStreamDict 1250000 0 c1Stream).getD []) "bit_rate" =
      some (.int 1000000) := by
  have h := emitted_video_bit_rate 1250000 0 c1Stream
    ((ffmpegStreamDict 1250000 0 c1Stream).getD [])
    rfl (by norm_num [c1Stream]) (by rfl)
  rw [h]
  norm_num [c1Stream]

/-- Claim C2: for every successfully probed container, both entry points
return a `streams` list with exactly one entry per probed stream, whose
`k`-th entry carries index field `k` (indices unique, contiguous, ascending
in the container's native stream order). -/
theorem streams_indexed (input : PyInput) (p : ProberData) :
    (∀ r tr, ffmpeg input p = (.ok r, tr) →
      r.streams.length = p.streams.length ∧
      ∀ (k : ℕ) (d : Dict), r.streams[k]? = some d →
        dictGet d "index" = some (.int (k : ℤ))) ∧
    (∀ r tr, dump_container_data input p = (.ok r, tr) →
      r.streams.length = p.streams.length ∧
      ∀ (k : ℕ) (d : Dict), r.streams[k]? = some d →
        dictGet d "index" = some (.int (k : ℤ))) := by
  constructor
  · intro r tr h
    obtain ⟨ho, hp, haux, hch⟩ := ffmpeg_ok_elim input p r tr h
    refine ⟨ffmpegStreamsAux_length p.file_size p.streams 0 r.streams haux, ?_⟩
    intro k d hkd
    obtain ⟨s, hs, hds⟩ := ffmpegStreamsAux_get p.file_size p.streams 0 k r.streams d haux hkd
    have := (ffmpegStreamDict_common p.file_size (0 + k) s d hds).1
    simpa using this
  · intro r tr h
    obtain ⟨ho, hp, hst, hch⟩ := dump_ok_elim input p r tr h
    refine ⟨by rw [hst, dumpStreams_length], ?_⟩
    intro k d hkd
    rw [hst] at hkd
    cases hs : p.streams[k]? with
    | none =>
      rw [dumpStreams_get_none p.streams 0 k hs] at hkd
      exact absurd hkd (by simp)
    | some s =>
      rw [dumpStreams_get p.streams 0 k s hs] at hkd
      obtain rfl := Option.some.inj hkd
      have := (dumpStreamDict_common (0 + k) s).1
      simpa using this

/-- Witness for C2: a container with two streams yields two stream dicts
whose second entry carries index 1. -/
theorem streams_indexed_witness :
    (((ffmpeg (.str "a.mkv") c2Prober).1.toOption.getD ⟨[], none⟩).streams.length = 2) ∧
    dictGet ((((ffmpeg (.str "a.mkv") c2Prober).1.toOption.getD
        ⟨[], none⟩).streams[1]?).getD []) "index" = some (.int 1) := by
  have h := (streams_indexed (.str "a.mkv") c2Prober).1
    ((ffmpeg (.str "a.mkv") c2Prober).1.toOption.getD ⟨[], none⟩)
    ((ffmpeg (.str "a.mkv") c2Prober).2) (by rfl)
  refine ⟨h.1.trans rfl, ?_⟩
  have h2 := h.2 1 ((((ffmpeg (.str "a.mkv") c2Prober).1.toOption.getD
    ⟨[], none⟩).streams[1]?).getD []) (by rfl)
  simpa using h2

/-- Claim C3 (code bug in the source): a concrete run in which the Prober
open succeeds, the probe succeeds, and the call returns a result — yet
`avformat_close_input` is never invoked, so the container handle leaks on
the success path. The C source calls `avformat_close_input` only on the
`avformat_find_stream_info` failure path (src/src/ffmpeg.cpp line 35); the
success return at line 240 and all construction-failure returns skip it. -/
theorem handle_leaked_on_success :
    (ffmpeg (.str "ok.mkv") successProber).2.openCalled = true ∧
    (ffmpeg (.str "ok.mkv") successProber).2.closeCalled = false ∧
    (ffmpeg (.str "ok.mkv") successProber).1 = .ok ⟨[], none⟩ :=
  ⟨rfl, rfl, rfl⟩

/-- Claim C4: for every successfully probed container, the result carries a
`chapters` key if and only if the container reports at least one chapter;
with zero chapters the key is entirely absent (`none`), not an empty
list. -/
theorem chapters_key_presence (input : PyInput) (p : ProberData)
    (r : ContainerResult) (tr : RunTrace) (h : ffmpeg input p = (.ok r, tr)) :
    (r.chapters ≠ none ↔ p.chapters ≠ []) ∧
    (p.chapters = [] → r.chapters = none) := by
  obtain ⟨ho, hp, haux, hch⟩ := ffmpeg_ok_elim input p r tr h
  by_cases hc : 0 < p.chapters.length
  · rw [hch, if_pos hc]
    have : p.chapters ≠ [] := by
      intro hnil
      rw [hnil] at hc
      simp at hc
    simp [this]
  · rw [hch, if_neg hc]
    have : p.chapters = [] := by
      cases hcs : p.chapters with
      | nil => rfl
      | cons c cs => rw [hcs] at hc; simp at hc
    simp [this]

/-- Witness for C4: the one-chapter container yields a result whose
`chapters` key is present. -/
theorem chapters_key_presence_witness :
    ((ffmpeg (.str "c.mkv") c4Prober).1.toOption.getD ⟨[], none⟩).chapters ≠ none := by
  have h := chapters_key_presence (.str "c.mkv") c4Prober
    ((ffmpeg (.str "c.mkv") c4Prober).1.toOption.getD ⟨[], none⟩)
    ((ffmpeg (.str "c.mkv") c4Prober).2) rfl
  exact h.1.mpr (by decide)

/-- Claim C5: for every subtitle stream, the emitted `language` equals the
stream's `language` metadata tag when present and `"und"` when absent, and
the emitted `title` equals the `title` tag when present and `""` when
absent. -/
theorem subtitle_language_title (fs : ℤ) (i : ℕ) (s : AVStreamData) (d : Dict)
    (hs : s.codec_type = .subtitle) (hd : ffmpegStreamDict fs i s = some d) :
    (∀ v, av_dict_get s.metadata "language" = some v →
      dictGet d "language" = some (.str v)) ∧
    (av_dict_get s.metadata "language" = none →
      dictGet d "language" = some (.str "und")) ∧
    (∀ v, av_dict_get s.metadata "title" = some v →
      dictGet d "title" = some (.str v)) ∧
    (av_dict_get s.metadata "title" = none →
      dictGet d "title" = some (.str "")) := by
  simp only [ffmpegStreamDict, hs, Option.some.injEq] at hd
  subst hd
  refine ⟨?_, ?_, ?_, ?_⟩
  · intro v hv
    simp [dictGet_dictSet_same, dictGet_dictSet_other, hv]
  · intro hv
    simp [dictGet_dictSet_same, dictGet_dictSet_other, hv]
  · intro v hv
    simp [dictGet_dictSet_same, dictGet_dictSet_other, hv]
  · intro hv
    simp [dictGet_dictSet_same, dictGet_dictSet_other, hv]

/-- Witness for C5: the subtitle stream with tag `language=fra` and no
`title` tag yields `language = "fra"` and `title = ""`. -/
theorem subtitle_language_title_witness :
    dictGet ((ffmpegStreamDict 0 0 subStream).getD []) "language" =
      some (.str "fra") ∧
    dictGet ((ffmpegStreamDict 0 0 subStream).getD []) "title" =
      some (.str "") := by
  have h := subtitle_language_title 0 0 subStream
    ((ffmpegStreamDict 0 0 subStream).getD []) rfl rfl
  exact ⟨h.1 "fra" rfl, h.2.2.2 rfl⟩

/-- Claim C6: FourCC decoding maps every 32-bit tag to the 4-character
string whose characters are the tag's bytes in low-to-high order (byte 0 =
least significant byte), each byte mapped directly to one character
regardless of printability; in particular tag 0x61706974 decodes to
`"tipa"`. -/
theorem fourcc_decoding_spec :
    (∀ tag : ℕ,
      (av_fourcc_make_string tag).data =
        [Char.ofNat (tag % 256), Char.ofNat (tag / 256 % 256),
         Char.ofNat (tag / 65536 % 256), Char.ofNat (tag / 16777216 % 256)] ∧
      (av_fourcc_make_string tag).length = 4) ∧
    av_fourcc_make_string 0x61706974 = "tipa" :=
  ⟨fun _ => ⟨rfl, rfl⟩, by decide⟩

/-- Claim C7: for every container reporting at least one chapter, the chapter
list preserves the Prober's order and `id` values verbatim, emits
`start_time = start × time_base` and `end_time = end × time_base` using
that chapter's own time base, and emits `title` from the chapter's `title`
tag with default `""`. -/
theorem chapter_list_spec (input : PyInput) (p : ProberData)
    (r : ContainerResult) (tr : RunTrace) (h : ffmpeg input p = (.ok r, tr))
    (hne : p.chapters ≠ []) :
    ∃ cl, r.chapters = some cl ∧ cl.length = p.chapters.length ∧
      ∀ (k : ℕ) (c : AVChapterData) (d : Dict),
        p.chapters[k]? = some c → cl[k]? = some d →
        dictGet d "id" = some (.int c.id) ∧
        dictGet d "start_time" = some (.float ((c.start : ℚ) * c.time_base)) ∧
        dictGet d "end_time" = some (.float ((c.end_ : ℚ) * c.time_base)) ∧
        (∀ v, av_dict_get c.metadata "title" = some v →
          dictGet d "title" = some (.str v)) ∧
        (av_dict_get c.metadata "title" = none →
          dictGet d "title" = some (.str "")) := by
  obtain ⟨ho, hp, haux, hch⟩ := ffmpeg_ok_elim input p r tr h
  have hc : 0 < p.chapters.length := by
    cases hcs : p.chapters with
    | nil => exact absurd hcs hne
    | cons c cs => simp [hcs]
  refine ⟨p.chapters.map ffmpegChapterDict, by rw [hch, if_pos hc], by simp, ?_⟩
  intro k c d hkc hkd
  rw [List.getElem?_map, hkc] at hkd
  obtain rfl := Option.some.inj hkd
  obtain ⟨h1, h2, h3, h4⟩ := ffmpegChapterDict_fields c
  refine ⟨h1, h2, h3, ?_, ?_⟩
  · intro v hv
    rw [h4, hv]
  · intro hv
    rw [h4, hv]

/-- Witness for C7: the chapter with start tick 0, end tick 9000 and time
base 1/9000 yields `start_time = 0.0`, `end_time = 1.0`, `id = 1` and
`title = "Intro"`. -/
theorem chapter_list_spec_witness :
    dictGet (ffmpegChapterDict chap1) "start_time" = some (.float 0) ∧
    dictGet (ffmpegChapterDict chap1) "end_time" = some (.float 1) ∧
    dictGet (ffmpegChapterDict chap1) "id" = some (.int 1) ∧
    dictGet (ffmpegChapterDict chap1) "title" = some (.str "Intro") := by
  obtain ⟨cl, hcl, hlen, hfields⟩ := chapter_list_spec (.str "c.mkv") c4Prober
    ((ffmpeg (.str "c.mkv") c4Prober).1.toOption.getD ⟨[], none⟩)
    ((ffmpeg (.str "c.mkv") c4Prober).2) (by rfl) (by decide)
  have hres : ((ffmpeg (.str "c.mkv") c4Prober).1.toOption.getD
      ⟨[], none⟩).chapters = some [ffmpegChapterDict chap1] := by rfl
  have hcl2 : cl = [ffmpegChapterDict chap1] :=
    Option.some.inj (hcl.symm.trans hres)
  have h := hfields 0 chap1 (ffmpegChapterDict chap1) rfl (by rw [hcl2]; rfl)
  obtain ⟨h1, h2, h3, h4, h5⟩ := h
  refine ⟨?_, ?_, by simpa [chap1] using h1, h4 "Intro" rfl⟩
  · rw [h2]
    norm_num [chap1]
  · rw [h3]
    norm_num [chap1]

/-- Claim C8 (code bug in the source): for the video stream whose codec id
and profile resolve to no known profile name, `avcodec_profile_name`
returns a null pointer which src/src/ffmpeg.cpp line 129 passes straight to
`PyUnicode_FromString` with no fallback — no stream dict is produced and
the whole call fails, instead of emitting a non-empty fallback string. -/
theorem profile_name_null_no_fallback :
    ffmpegStreamDict 0 0 unknownProfileStream = none ∧
    (ffmpeg (.str "v.mpg") c8Prober).1 = .error .constructionFailure :=
  ⟨rfl, rfl⟩

/-- Claim C9: for every non-string input, both entry points raise the
invalid-input error and return no result, and the trace records that
`avformat_open_input` was never invoked (no I/O attempted). -/
theorem invalid_input_no_io (p : ProberData) :
    ffmpeg .nonstr p = (.error .invalidInput, ⟨false, false⟩) ∧
    dump_container_data .nonstr p = (.error .invalidInput, ⟨false, false⟩) :=
  ⟨rfl, rfl⟩

/-- Claim C10: on every container on which both entry points succeed, the
two returned `streams` lists have equal length and the `k`-th entries agree
on the common fields `index`, `type` and `codec`. -/
theorem entrypoints_agree_common_fields (input : PyInput) (p : ProberData)
    (r1 r2 : ContainerResult) (t1 t2 : RunTrace)
    (h1 : ffmpeg input p = (.ok r1, t1))
    (h2 : dump_container_data input p = (.ok r2, t2)) :
    r1.streams.length = r2.streams.length ∧
    ∀ (k : ℕ) (d1 d2 : Dict), r1.streams[k]? = some d1 → r2.streams[k]? = some d2 →
      dictGet d1 "index" = dictGet d2 "index" ∧
      dictGet d1 "type" = dictGet d2 "type" ∧
      dictGet d1 "codec" = dictGet d2 "codec" := by
  obtain ⟨ho1, hp1, haux, hch1⟩ := ffmpeg_ok_elim input p r1 t1 h1
  obtain ⟨ho2, hp2, hst2, hch2⟩ := dump_ok_elim input p r2 t2 h2
  constructor
  · rw [ffmpegStreamsAux_length p.file_size p.streams 0 r1.streams haux,
      hst2, dumpStreams_length p.streams 0]
  · intro k d1 d2 hk1 hk2
    obtain ⟨s, hs, hds⟩ := ffmpegStreamsAux_get p.file_size p.streams 0 k
      r1.streams d1 haux hk1
    rw [hst2, dumpStreams_get p.streams 0 k s hs] at hk2
    obtain rfl := Option.some.inj hk2
    obtain ⟨f1, f2, f3⟩ := ffmpegStreamDict_common p.file_size (0 + k) s d1 hds
    obtain ⟨g1, g2, g3⟩ := dumpStreamDict_common (0 + k) s
    exact ⟨f1.trans g1.symm, f2.trans g2.symm, f3.trans g3.symm⟩

/-- Witness for C10: on the three-stream container both entry points
succeed, return three stream dicts each, and their subtitle entries agree
on `index`, `type` and `codec`. -/
theorem entrypoints_agree_witness :
    ((ffmpeg (.str "m.mkv") c10Prober).1.toOption.getD ⟨[], none⟩).streams.length =
      ((dump_container_data (.str "m.mkv") c10Prober).1.toOption.getD
        ⟨[], none⟩).streams.length ∧
    dictGet ((((ffmpeg (.str "m.mkv") c10Prober).1.toOption.getD
        ⟨[], none⟩).streams[2]?).getD []) "codec" =
      dictGet ((((dump_container_data (.str "m.mkv") c10Prober).1.toOption.getD
        ⟨[], none⟩).streams[2]?).getD []) "codec" := by
  have h := entrypoints_agree_common_fields (.str "m.mkv") c10Prober
    ((ffmpeg (.str "m.mkv") c10Prober).1.toOption.getD ⟨[], none⟩)
    ((dump_container_data (.str "m.mkv") c10Prober).1.toOption.getD ⟨[], none⟩)
    ((ffmpeg (.str "m.mkv") c10Prober).2)
    ((dump_container_data (.str "m.mkv") c10Prober).2) rfl rfl
  refine ⟨h.1, ?_⟩
  exact (h.2 2
    ((((ffmpeg (.str "m.mkv") c10Prober).1.toOption.getD ⟨[], none⟩).streams[2]?).getD [])
    ((((dump_container_data (.str "m.mkv") c10Prober).1.toOption.getD
      ⟨[], none⟩).streams[2]?).getD [])
    (by rfl) (by rfl)).2.2

end CanonMedia
